import Mathlib

/-!
# echotrace / go_decrypt : file-handle liberation

A shallow embedding of `internal/unlock/file_unlock_windows.go` and
`internal/unlock/close_self_handles_windows.go`.

Conventions of the embedding

* Every native entry point (`proc….Call`) is an event appended to a call log; the
  values the operating system hands back are read from an explicit oracle record, so
  a theorem quantified over the oracle holds for every behaviour of the OS.
* The target is windows/amd64: `uintptr` and `int` are 64 bits wide, `uint32` and
  `uint16` are reduced with an explicit `%`.
* A Go `string` that reaches these functions is a sequence of code points
  (`String`); the byte-wise `strings` functions used by the source agree with their
  code-point versions on such strings.
-/

namespace Unlock

/-! ## Embedding of file_unlock_windows.go -/

def CCH_RM_SESSION_KEY : Nat := 32

def CCH_RM_MAX_APP_NAME : Nat := 255

def CCH_RM_MAX_SVC_NAME : Nat := 63

def RmForceShutdown : Nat := 0x1

def RmShutdownOnlyRegistered : Nat := 0x10

/-- UTF-16 code units of one code point (`utf16.AppendRune`). -/
def utf16Rune (c : Char) : List Nat :=
  if c.toNat < 0x10000 then [c.toNat]
  else [0xD800 + (c.toNat - 0x10000) / 0x400, 0xDC00 + (c.toNat - 0x10000) % 0x400]

/-- Go `syscall.UTF16FromString`: fails (EINVAL) when the string holds a NUL,
otherwise the NUL-terminated UTF-16 encoding. `syscall.UTF16PtrFromString` is the
address of the first unit of this slice; the model passes the slice itself. -/
def UTF16PtrFromString (s : String) : Option (List Nat) :=
  if (Char.ofNat 0) ∈ s.data then none
  else some (s.data.flatMap utf16Rune ++ [0])

/-- Native calls into rstrtmgr.dll, with the arguments as the source passes them.
A pointer argument that the source passes as `uintptr(0)` is the number 0; the
file-name array is given by its content. -/
inductive RmCall where
  /-- The call `RmStartSession(&sessionHandle, dwSessionFlags, &sessionKey[0])`;
  `keyLen` is the length of the key buffer the source allocates. -/
  | RmStartSession (dwSessionFlags keyLen : Nat)
  | RmEndSession (sessionHandle : Nat)
  | RmRegisterResources (sessionHandle nFiles : Nat) (rgsFileNames : List (List Nat))
      (nApplications rgApplications nServices rgsServiceNames : Nat)
  | RmShutdown (sessionHandle lActionFlags fnStatus : Nat)
  deriving DecidableEq, Repr

/-- What the Restart Manager answers during one `ForceUnlockFile` call. -/
structure RmOracle where
  /-- Return code of RmStartSession. -/
  startRet : Nat
  /-- Value RmStartSession stores through the `&sessionHandle` pointer. -/
  startHandle : Nat
  /-- Return code of RmRegisterResources. -/
  registerRet : Nat
  /-- Return code of RmShutdown. -/
  shutdownRet : Nat
  deriving Repr

/-- The errors `ForceUnlockFile` builds with `fmt.Errorf`. -/
inductive UnlockError where
  | startFailed (code : Nat)
  | utf16Failed
  | registerFailed (code : Nat)
  | shutdownFailed (code : Nat)
  deriving DecidableEq, Repr

/-- The text of the error, as formatted by the source (`%d` of the return code). -/
def UnlockError.message : UnlockError → String
  | .startFailed c => "RmStartSession failed with error code: " ++ toString c
  | .utf16Failed => "failed to convert file path to UTF16: invalid argument"
  | .registerFailed c => "RmRegisterResources failed with error code: " ++ toString c
  | .shutdownFailed c => "RmShutdown failed with error code: " ++ toString c

/-- Result of one run: the native calls in the order they were issued and the
returned `error` (`none` is Go's `nil`). -/
structure UnlockRun where
  calls : List RmCall
  err : Option UnlockError
  deriving Repr

/-- Go `ForceUnlockFile(filePath)`. The `defer procRmEndSession.Call(...)` of line 47
evaluates its argument when the `defer` statement runs and issues the call when
the function returns, whatever `return` is taken after it. -/
def ForceUnlockFile (os : RmOracle) (filePath : String) : UnlockRun :=
  let sessionHandle := os.startHandle % 2 ^ 32
  let t0 := [RmCall.RmStartSession 0 (CCH_RM_SESSION_KEY + 1)]
  if os.startRet ≠ 0 then
    ⟨t0, some (.startFailed os.startRet)⟩
  else
    let deferred := [RmCall.RmEndSession sessionHandle]
    match UTF16PtrFromString filePath with
    | none => ⟨t0 ++ deferred, some .utf16Failed⟩
    | some filePathUTF16 =>
      let t1 := t0 ++ [RmCall.RmRegisterResources sessionHandle 1 [filePathUTF16] 0 0 0 0]
      if os.registerRet ≠ 0 then
        ⟨t1 ++ deferred, some (.registerFailed os.registerRet)⟩
      else
        let t2 := t1 ++ [RmCall.RmShutdown sessionHandle
          (RmForceShutdown ||| RmShutdownOnlyRegistered) 0]
        if os.shutdownRet ≠ 0 then
          if os.shutdownRet = 6 then ⟨t2 ++ deferred, none⟩
          else ⟨t2 ++ deferred, some (.shutdownFailed os.shutdownRet)⟩
        else ⟨t2 ++ deferred, none⟩

/-- Whether a logged call is an RmEndSession. -/
def RmCall.isEndSession : RmCall → Bool
  | .RmEndSession _ => true
  | _ => false

/-- Number of RmEndSession calls in a log. -/
def endSessionCount (t : List RmCall) : Nat := t.countP RmCall.isEndSession

/-! ## Embedding of close_self_handles_windows.go -/

def SystemHandleInformation : Nat := 16

def DUPLICATE_SAME_ACCESS : Nat := 0x00000002

def FILE_NAME_NORMALIZED : Nat := 0x0

/-- Go `type SYSTEM_HANDLE_TABLE_ENTRY_INFO struct`. -/
structure SYSTEM_HANDLE_TABLE_ENTRY_INFO where
  UniqueProcessId : Nat
  CreatorBackTraceIndex : Nat
  ObjectTypeIndex : Nat
  HandleAttributes : Nat
  HandleValue : Nat
  Object : Nat
  GrantedAccess : Nat
  deriving DecidableEq, Repr

/-- Byte-addressed memory: the byte stored at each address. -/
abbrev Memory := Nat → Nat

/-- Little-endian unsigned integer of `n` bytes at address `a`. -/
def readLE (mem : Memory) (a : Nat) : Nat → Nat
  | 0 => 0
  | n + 1 => mem a % 256 + 256 * readLE mem (a + 1) n

/-- Go `unsafe.Sizeof(SYSTEM_HANDLE_TABLE_ENTRY_INFO{})` on amd64: the fields lie at
offsets 0, 2, 4, 5, 6, 8 and 16, and the size is rounded up to the alignment 8 of
`uintptr`. -/
def entrySize : Nat := 24

/-- Offset of `Handles` inside `SYSTEM_HANDLE_INFORMATION` on amd64: the `uint32`
count is followed by padding up to the alignment 8 of the record. -/
def handlesOffset : Nat := 8

/-- The record `*(*SYSTEM_HANDLE_TABLE_ENTRY_INFO)(unsafe.Pointer(addr))`. -/
def readEntry (mem : Memory) (addr : Nat) : SYSTEM_HANDLE_TABLE_ENTRY_INFO where
  UniqueProcessId := readLE mem addr 2
  CreatorBackTraceIndex := readLE mem (addr + 2) 2
  ObjectTypeIndex := readLE mem (addr + 4) 1
  HandleAttributes := readLE mem (addr + 5) 1
  HandleValue := readLE mem (addr + 6) 2
  Object := readLE mem (addr + 8) 8
  GrantedAccess := readLE mem (addr + 16) 4

/-- Address of record `i`: `handlesPtr + uintptr(i)*unsafe.Sizeof(...)` in `uintptr`
arithmetic, where `handlesPtr` is `&handleInfo.Handles[0]` and `base` is
`&buffer[0]`. -/
def entryAddr (base i : Nat) : Nat :=
  ((base + handlesOffset) % 2 ^ 64 + (i * entrySize) % 2 ^ 64) % 2 ^ 64

/-- The field `handleInfo.NumberOfHandles`. -/
def numberOfHandles (mem : Memory) (base : Nat) : Nat := readLE mem base 4

/-- Go `strings.ReplaceAll(s, old, new)` for one-character `old` and `new`. -/
def ReplaceAll (s : String) (old new : Char) : String :=
  ⟨s.data.map (fun c => if c = old then new else c)⟩

/-- Go `strings.ToLower(s)`, over the code-point mapping `unicode.ToLower`, which is
a table of the Go library and is taken as the parameter `lower`. -/
def ToLower (lower : Char → Char) (s : String) : String := ⟨s.data.map lower⟩

/-- Go `strings.HasPrefix(s, p)`. -/
def startsWith (s p : String) : Bool := decide (p.data <+: s.data)

/-- Go `strings.HasSuffix(s, suffix)`. -/
def HasSuffix (s suffix : String) : Bool := decide (suffix.data <:+ s.data)

/-- Go `strings.TrimPrefix(s, p)`: `s` without the leading `p` if it has one,
otherwise `s` unchanged. -/
def TrimLeading (s p : String) : String :=
  if startsWith s p then ⟨s.data.drop p.data.length⟩ else s

/-- The long-path device marker `\\?\` (the Go literal of line 139). -/
def devicePrefix : String := "\\\\?\\"

/-- Lines 52: the target after `filepath.Abs`. -/
def normalizeTarget (lower : Char → Char) (absPath : String) : String :=
  ToLower lower (ReplaceAll absPath '/' '\\')

/-- Lines 136 and 139: a path resolved from a handle. -/
def normalizeHandlePath (lower : Char → Char) (handlePath : String) : String :=
  TrimLeading (ToLower lower (ReplaceAll handlePath '/' '\\')) devicePrefix

/-- The test of line 142. -/
def pathsMatch (handlePath absPath : String) : Bool :=
  HasSuffix handlePath absPath || HasSuffix absPath handlePath

/-- Native calls into kernel32.dll and ntdll.dll. Output pointers are left out; the
two `procCloseHandle.Call` sites are told apart by `CloseSite`. -/
inductive CloseSite where
  /-- Line 128: `procCloseHandle.Call(uintptr(duplicatedHandle))`. -/
  | duplicate
  /-- Line 144: `procCloseHandle.Call(uintptr(handle.HandleValue))`. -/
  | original
  deriving DecidableEq, Repr

inductive Call where
  | GetCurrentProcess
  | NtQuerySystemInformation (SystemInformationClass SystemInformationLength : Nat)
  | DuplicateHandle (hSourceProcessHandle hSourceHandle hTargetProcessHandle
      dwDesiredAccess bInheritHandle dwOptions : Nat)
  | GetFinalPathNameByHandleW (hFile cchFilePath dwFlags : Nat)
  | CloseHandle (site : CloseSite) (hObject : Nat)
  deriving DecidableEq, Repr

/-- One answer to `NtQuerySystemInformation`, together with the address at which
`make([]byte, bufferSize)` placed the buffer of that attempt. -/
structure QueryReply where
  /-- Address of `buffer[0]`. -/
  base : Nat
  /-- The returned NTSTATUS. -/
  status : Nat
  /-- Value of the variable `returnLength` after the call. -/
  returnLength : Nat
  /-- Memory as the decoding code reads it after the call. -/
  mem : Memory

/-- How the query loop of lines 63 to 83 ends. -/
inductive QueryResult where
  | snapshot (base bufferSize : Nat) (mem : Memory)
  | failed (status : Nat)
  /-- The expression `&buffer[0]` on a buffer of length 0: index out of range. -/
  | panicked
  /-- The replies ran out: the last call has not returned. -/
  | pending

/-- The query loop: the buffer sizes of the attempts, in order, and the result. -/
def queryLoop : List QueryReply → Nat → List Nat × QueryResult
  | [], bufferSize =>
    if bufferSize = 0 then ([bufferSize], .panicked) else ([bufferSize], .pending)
  | r :: rs, bufferSize =>
    if bufferSize = 0 then ([bufferSize], .panicked)
    else if r.status = 0 then ([bufferSize], .snapshot r.base bufferSize r.mem)
    else if r.status = 0xC0000004 then
      let next := queryLoop rs ((r.returnLength % 2 ^ 32 + 1024) % 2 ^ 32)
      (bufferSize :: next.1, next.2)
    else ([bufferSize], .failed r.status)

/-- Everything outside the function that `CloseSelfFileHandles` depends on. The
answers of the per-entry calls are indexed by the loop counter `i`. -/
structure Env where
  /-- Go `filepath.Abs`: the absolute path, or the cause of the failure. -/
  Abs : String → Except String String
  /-- Go `unicode.ToLower`. -/
  lower : Char → Char
  /-- Go `syscall.Getpid()`. -/
  pid : Nat
  /-- Return value of GetCurrentProcess. -/
  currentProcess : Nat
  /-- Answers of NtQuerySystemInformation, one per attempt. -/
  replies : List QueryReply
  /-- Return value of DuplicateHandle for entry `i`. -/
  dupRet : Nat → Nat
  /-- Value DuplicateHandle stores in `duplicatedHandle` for entry `i`. -/
  dupHandle : Nat → Nat
  /-- Return value of GetFinalPathNameByHandleW for entry `i`. -/
  pathRet : Nat → Nat
  /-- The string `syscall.UTF16ToString(pathBuffer)` after that call. -/
  pathText : Nat → String
  /-- Return value of CloseHandle on the original handle of entry `i`. -/
  closeRet : Nat → Nat

/-- Line 56: `uint32(syscall.Getpid())`. -/
def currentPID (env : Env) : Nat := env.pid % 2 ^ 32

/-- Calls issued and increment of `closedCount` while the loop body of lines 93 to
148 runs for counter `i` on record `handle`. -/
def scanEntry (env : Env) (absPath : String) (i : Nat)
    (handle : SYSTEM_HANDLE_TABLE_ENTRY_INFO) : List Call × Nat :=
  if handle.UniqueProcessId % 2 ^ 32 ≠ currentPID env then ([], 0)
  else
    let c1 := Call.DuplicateHandle env.currentProcess handle.HandleValue
      env.currentProcess 0 0 DUPLICATE_SAME_ACCESS
    if env.dupRet i = 0 then ([c1], 0)
    else
      let duplicatedHandle := env.dupHandle i % 2 ^ 64
      let c2 := Call.GetFinalPathNameByHandleW duplicatedHandle 32768 FILE_NAME_NORMALIZED
      let c3 := Call.CloseHandle .duplicate duplicatedHandle
      if env.pathRet i = 0 then ([c1, c2, c3], 0)
      else
        let handlePath := normalizeHandlePath env.lower (env.pathText i)
        if pathsMatch handlePath absPath then
          ([c1, c2, c3, Call.CloseHandle .original handle.HandleValue],
            if env.closeRet i ≠ 0 then 1 else 0)
        else ([c1, c2, c3], 0)

/-- State of the scan loop: the calls so far, the record addresses dereferenced so
far, and `closedCount`. -/
structure ScanState where
  calls : List Call
  reads : List Nat
  closedCount : Nat

/-- The loop of lines 92 to 149, for `i` from 0 below `n`. -/
def scanLoop (env : Env) (absPath : String) (base : Nat) (mem : Memory) (n : Nat) :
    ScanState :=
  (List.range n).foldl (fun st i =>
    let addr := entryAddr base i
    let step := scanEntry env absPath i (readEntry mem addr)
    ⟨st.calls ++ step.1, st.reads ++ [addr], st.closedCount + step.2⟩) ⟨[], [], 0⟩

/-- The errors `CloseSelfFileHandles` builds with `fmt.Errorf`. -/
inductive CloseError where
  | absFailed (cause : String)
  | queryFailed (status : Nat)
  | noHandlesFound (filePath : String)
  deriving DecidableEq, Repr

/-- How a run ends. `returned none` is Go's `return nil`. -/
inductive Outcome where
  | returned (err : Option CloseError)
  | panicked
  | pending
  deriving DecidableEq, Repr

/-- One run of `CloseSelfFileHandles`: the native calls in order, the buffer sizes
of the query attempts, the record addresses the scan dereferenced, the final
`closedCount`, how the run ended, and the value of the variable `absPath` after
line 52 (`none` when line 50 returned). -/
structure CloseRun where
  calls : List Call
  sizes : List Nat
  reads : List Nat
  closedCount : Nat
  outcome : Outcome
  absPath : Option String

/-- Go `CloseSelfFileHandles(filePath)`. -/
def CloseSelfFileHandles (env : Env) (filePath : String) : CloseRun :=
  match env.Abs filePath with
  | .error cause => ⟨[], [], [], 0, .returned (some (.absFailed cause)), none⟩
  | .ok abs0 =>
    let absPath := normalizeTarget env.lower abs0
    let q := queryLoop env.replies (1024 * 1024)
    let pre := Call.GetCurrentProcess ::
      q.1.map (fun size => Call.NtQuerySystemInformation SystemHandleInformation size)
    match q.2 with
    | .failed status =>
      ⟨pre, q.1, [], 0, .returned (some (.queryFailed status)), some absPath⟩
    | .panicked => ⟨pre.dropLast, q.1, [], 0, .panicked, some absPath⟩
    | .pending => ⟨pre, q.1, [], 0, .pending, some absPath⟩
    | .snapshot base _ mem =>
      let st := scanLoop env absPath base mem (numberOfHandles mem base)
      ⟨pre ++ st.calls, q.1, st.reads, st.closedCount,
        if st.closedCount > 0 then .returned none
        else .returned (some (.noHandlesFound filePath)),
        some absPath⟩

/-! ## Notions used by the statements -/

/-- The calls of a run that got as far as the shutdown step. -/
def fullSessionLog (sessionHandle : Nat) (file : List Nat) (flags fnStatus : Nat) :
    List RmCall :=
  [RmCall.RmStartSession 0 (CCH_RM_SESSION_KEY + 1),
   RmCall.RmRegisterResources sessionHandle 1 [file] 0 0 0 0,
   RmCall.RmShutdown sessionHandle flags fnStatus,
   RmCall.RmEndSession sessionHandle]

/-- Record `i` of the snapshot, as the scan loop reads it. -/
def snapshotEntry (mem : Memory) (base i : Nat) : SYSTEM_HANDLE_TABLE_ENTRY_INFO :=
  readEntry mem (entryAddr base i)

/-- Suffix equivalence of the specification: one string is a trailing substring
of the other. -/
def suffixEquivalent (a b : String) : Prop := a.data <:+ b.data ∨ b.data <:+ a.data

instance (a b : String) : Decidable (suffixEquivalent a b) :=
  inferInstanceAs (Decidable (_ ∨ _))

/-- Entry `i` is owned by the calling process. -/
def selfOwned (env : Env) (e : SYSTEM_HANDLE_TABLE_ENTRY_INFO) : Prop :=
  e.UniqueProcessId = currentPID env

instance (env : Env) (e : SYSTEM_HANDLE_TABLE_ENTRY_INFO) : Decidable (selfOwned env e) :=
  inferInstanceAs (Decidable (_ = _))

/-- Entry `i` resolves to a path: its duplication and the path query on the
duplicate both return non-zero. -/
def resolves (env : Env) (i : Nat) : Prop := env.dupRet i ≠ 0 ∧ env.pathRet i ≠ 0

instance (env : Env) (i : Nat) : Decidable (resolves env i) :=
  inferInstanceAs (Decidable (_ ∧ _))

/-- The entries the specification says are closed: self-owned, resolving to a
path whose normal form is suffix-equivalent to the normalised target. -/
def closable (env : Env) (target : String) (i : Nat)
    (e : SYSTEM_HANDLE_TABLE_ENTRY_INFO) : Prop :=
  selfOwned env e ∧ resolves env i
    ∧ suffixEquivalent (normalizeHandlePath env.lower (env.pathText i)) target

instance (env : Env) (target : String) (i : Nat) (e : SYSTEM_HANDLE_TABLE_ENTRY_INFO) :
    Decidable (closable env target i e) :=
  inferInstanceAs (Decidable (_ ∧ _))

/-- Whether a logged call is a CloseHandle issued at the given site. -/
def Call.isCloseAt (site : CloseSite) : Call → Bool
  | .CloseHandle s _ => decide (s = site)
  | _ => false

/-- The calls that precede the scan: GetCurrentProcess and one query per attempt. -/
def queryCalls (sizes : List Nat) : List Call :=
  Call.GetCurrentProcess ::
    sizes.map (fun size => Call.NtQuerySystemInformation SystemHandleInformation size)

/-- The calls of the loop iteration for counter `i`. -/
def segment (env : Env) (target : String) (mem : Memory) (base i : Nat) : List Call :=
  (scanEntry env target i (snapshotEntry mem base i)).1

/-- Whether a logged call is a DuplicateHandle or a CloseHandle. -/
def Call.isHandleOp : Call → Bool
  | .DuplicateHandle _ _ _ _ _ _ => true
  | .CloseHandle _ _ => true
  | _ => false

/-- Number of snapshot entries the specification says are closed. -/
def closableCount (env : Env) (target : String) (mem : Memory) (base : Nat) : Nat :=
  (List.range (numberOfHandles mem base)).countP
    (fun i => decide (closable env target i (snapshotEntry mem base i)))

/-- Number of closable snapshot entries whose CloseHandle on the original returned
non-zero. -/
def closedOkCount (env : Env) (target : String) (mem : Memory) (base : Nat) : Nat :=
  (List.range (numberOfHandles mem base)).countP
    (fun i => decide (closable env target i (snapshotEntry mem base i) ∧ env.closeRet i ≠ 0))

/-! ## Concrete environments -/

/-- A snapshot of two records in a buffer at address 4096: the count field is 2;
entry 0 (at 4104) belongs to process 4660 (bytes 0x34, 0x12) and has handle value
0x44; entry 1 (at 4128) belongs to process 808 (bytes 0x28, 0x03) and has handle
value 0x50. -/
def demoMem : Memory := fun a =>
  if a = 4096 then 2
  else if a = 4104 then 0x34 else if a = 4105 then 0x12 else if a = 4110 then 0x44
  else if a = 4128 then 0x28 else if a = 4129 then 0x03 else if a = 4134 then 0x50
  else 0

/-- A caller with process id 4660 whose first query succeeds with `demoMem`;
`filepath.Abs` returns its argument (the paths used are absolute and clean),
lower-casing is the ASCII one (the paths used are ASCII), every duplication and
path query succeeds, every handle resolves to `\\?\C:\data\db.sqlite`, and
CloseHandle on an original returns `closeRet`. -/
def demoEnv (closeRet : Nat) : Env where
  Abs := fun p => .ok p
  lower := Char.toLower
  pid := 4660
  currentProcess := 2 ^ 64 - 1
  replies := [⟨4096, 0, 0, demoMem⟩]
  dupRet := fun _ => 1
  dupHandle := fun _ => 0x88
  pathRet := fun _ => 22
  pathText := fun _ => "\\\\?\\C:\\data\\db.sqlite"
  closeRet := fun _ => closeRet

/-- A caller whose process id does not fit in 16 bits, on the snapshot of
`demoEnv`. -/
def bigPidEnv : Env := { demoEnv 1 with pid := 70000 }

/-- The kernel answers the first query with "buffer too small" and a required
length of 0, and the second query with success. -/
def shrinkEnv : Env :=
  { demoEnv 1 with
    replies := [⟨4096, 0xC0000004, 0, demoMem⟩, ⟨8192, 0, 0, demoMem⟩] }

/-- The first query succeeds and leaves a buffer in which every byte is 0xFF. -/
def ffEnv : Env := { demoEnv 1 with replies := [⟨4096, 0, 0, fun _ => 255⟩] }

/-- The kernel answers the first query with "buffer too small" and a required
length of 2000000, and the second query with success. -/
def growEnv : Env :=
  { demoEnv 1 with
    replies := [⟨4096, 0xC0000004, 2000000, demoMem⟩, ⟨8192, 0, 0, demoMem⟩] }

/-! ## Restart Manager session -/

/-- C1. For every path and every combination of return codes, one run of
`ForceUnlockFile` calls RmEndSession exactly once when RmStartSession returned 0
and never when it returned non-zero; every RmEndSession call in the log carries
the handle that RmStartSession stored, and it is the last call of the run. -/
theorem forceUnlock_endSession_exactly_once (os : RmOracle) (filePath : String) :
    endSessionCount (ForceUnlockFile os filePath).calls
        = (if os.startRet = 0 then 1 else 0)
    ∧ (∀ h, RmCall.RmEndSession h ∈ (ForceUnlockFile os filePath).calls →
        h = os.startHandle % 2 ^ 32
        ∧ (ForceUnlockFile os filePath).calls.getLast?
            = some (RmCall.RmEndSession (os.startHandle % 2 ^ 32))) := by
  unfold ForceUnlockFile endSessionCount
  by_cases h0 : os.startRet = 0
  · cases hu : UTF16PtrFromString filePath with
    | none => simp [h0, RmCall.isEndSession]
    | some u =>
      by_cases h1 : os.registerRet = 0
      · by_cases h2 : os.shutdownRet = 0
        · simp [h0, h1, h2, RmCall.isEndSession]
        · by_cases h3 : os.shutdownRet = 6 <;>
            simp [h0, h1, h2, h3, RmCall.isEndSession]
      · simp [h0, h1, RmCall.isEndSession]
  · simp [h0, RmCall.isEndSession]

/-- C1, on the branch where the registration fails with code 5: one RmEndSession,
on the handle 7 that the start produced. -/
theorem forceUnlock_endSession_exactly_once_witness :
    endSessionCount (ForceUnlockFile ⟨0, 7, 5, 0⟩ "C:\\data\\db.sqlite").calls = 1
    ∧ (ForceUnlockFile ⟨0, 7, 5, 0⟩ "C:\\data\\db.sqlite").calls.getLast?
        = some (RmCall.RmEndSession 7) :=
  ⟨(forceUnlock_endSession_exactly_once ⟨0, 7, 5, 0⟩ "C:\\data\\db.sqlite").1,
   ((forceUnlock_endSession_exactly_once ⟨0, 7, 5, 0⟩ "C:\\data\\db.sqlite").2 7
      (by decide)).2⟩

/-- C2. `ForceUnlockFile` returns nil exactly when RmStartSession returned 0, the
path converted to UTF-16, RmRegisterResources returned 0 and RmShutdown returned
0 or 6; a non-zero start code, a non-zero registration code and every shutdown
code other than 0 and 6 come back inside the error; and when the OS reports no
holder on every call (shutdown code 0 or 6), every call of a series on the same
path returns nil. -/
theorem forceUnlock_nil_iff (os : RmOracle) (filePath : String) :
    ((ForceUnlockFile os filePath).err = none ↔
        os.startRet = 0 ∧ (UTF16PtrFromString filePath).isSome ∧ os.registerRet = 0
          ∧ (os.shutdownRet = 0 ∨ os.shutdownRet = 6))
    ∧ (os.startRet ≠ 0 →
        (ForceUnlockFile os filePath).err = some (.startFailed os.startRet))
    ∧ (os.startRet = 0 → (UTF16PtrFromString filePath).isSome → os.registerRet ≠ 0 →
        (ForceUnlockFile os filePath).err = some (.registerFailed os.registerRet))
    ∧ (os.startRet = 0 → (UTF16PtrFromString filePath).isSome → os.registerRet = 0 →
        os.shutdownRet ≠ 0 → os.shutdownRet ≠ 6 →
        (ForceUnlockFile os filePath).err = some (.shutdownFailed os.shutdownRet))
    ∧ ((UTF16PtrFromString filePath).isSome →
        ∀ series : List RmOracle,
          (∀ o ∈ series, o.startRet = 0 ∧ o.registerRet = 0
            ∧ (o.shutdownRet = 0 ∨ o.shutdownRet = 6)) →
          ∀ o ∈ series, (ForceUnlockFile o filePath).err = none) := by
  have key : ∀ o : RmOracle, ((ForceUnlockFile o filePath).err = none ↔
        o.startRet = 0 ∧ (UTF16PtrFromString filePath).isSome ∧ o.registerRet = 0
          ∧ (o.shutdownRet = 0 ∨ o.shutdownRet = 6)) := by
    intro o
    unfold ForceUnlockFile
    by_cases h0 : o.startRet = 0
    · cases hu : UTF16PtrFromString filePath with
      | none => simp [h0]
      | some u =>
        by_cases h1 : o.registerRet = 0
        · by_cases h2 : o.shutdownRet = 0
          · simp [h0, h1, h2]
          · by_cases h3 : o.shutdownRet = 6 <;> simp [h0, h1, h2, h3]
        · simp [h0, h1]
    · simp [h0]
  refine ⟨key os, ?_, ?_, ?_, ?_⟩
  · intro h0
    simp [ForceUnlockFile, h0]
  · intro h0 hu h1
    obtain ⟨u, hu⟩ := Option.isSome_iff_exists.mp hu
    simp [ForceUnlockFile, h0, hu, h1]
  · intro h0 hu h1 h2 h3
    obtain ⟨u, hu⟩ := Option.isSome_iff_exists.mp hu
    simp [ForceUnlockFile, h0, hu, h1, h2, h3]
  · intro hu series hs o ho
    obtain ⟨a, b, c⟩ := hs o ho
    exact (key o).mpr ⟨a, hu, b, c⟩

/-- C2, for a shutdown that reports code 6: the run returns nil. -/
theorem forceUnlock_nil_iff_witness :
    (ForceUnlockFile ⟨0, 7, 0, 6⟩ "C:\\data\\db.sqlite").err = none :=
  (forceUnlock_nil_iff ⟨0, 7, 0, 6⟩ "C:\\data\\db.sqlite").1.mpr
    ⟨rfl, by decide, rfl, Or.inr rfl⟩

/-- C5. A run reaches the shutdown step exactly when the start, the conversion
and the registration succeeded; whenever an RmShutdown call is in the log, its
flags have the bits 0x10 (only registered) and 0x1 (force) set and are exactly
these two bits, its callback is null, and the whole log is: start, registration
of the one converted target path with zero applications and zero services,
that shutdown, end of session, all on the handle the start produced. -/
theorem forceUnlock_shutdown_only_registered (os : RmOracle) (filePath : String) :
    ((∃ h f c, RmCall.RmShutdown h f c ∈ (ForceUnlockFile os filePath).calls) ↔
        os.startRet = 0 ∧ (UTF16PtrFromString filePath).isSome ∧ os.registerRet = 0)
    ∧ (∀ h f c, RmCall.RmShutdown h f c ∈ (ForceUnlockFile os filePath).calls →
        f &&& RmShutdownOnlyRegistered = RmShutdownOnlyRegistered
        ∧ f &&& RmForceShutdown = RmForceShutdown
        ∧ f = 0x11 ∧ c = 0 ∧ h = os.startHandle % 2 ^ 32
        ∧ ∃ u, UTF16PtrFromString filePath = some u
            ∧ (ForceUnlockFile os filePath).calls = fullSessionLog h u f c) := by
  unfold ForceUnlockFile fullSessionLog
  by_cases h0 : os.startRet = 0
  · cases hu : UTF16PtrFromString filePath with
    | none => simp [h0]
    | some u =>
      by_cases h1 : os.registerRet = 0
      · have hf : RmForceShutdown ||| RmShutdownOnlyRegistered = 0x11 := by decide
        have ha : (0x11 : Nat) &&& RmShutdownOnlyRegistered = RmShutdownOnlyRegistered := by
          decide
        have hb : (0x11 : Nat) &&& RmForceShutdown = RmForceShutdown := by decide
        by_cases h2 : os.shutdownRet = 0
        · simp [h0, h1, h2, hf]
          rintro h f c rfl rfl rfl
          exact ⟨ha, hb, rfl, rfl, rfl, rfl, ⟨rfl, rfl, rfl⟩, rfl⟩
        · by_cases h3 : os.shutdownRet = 6
          · simp [h0, h1, h3, hf]
            rintro h f c rfl rfl rfl
            exact ⟨ha, hb, rfl, rfl, rfl, rfl, ⟨rfl, rfl, rfl⟩, rfl⟩
          · simp [h0, h1, h2, h3, hf]
            rintro h f c rfl rfl rfl
            exact ⟨ha, hb, rfl, rfl, rfl, rfl, ⟨rfl, rfl, rfl⟩, rfl⟩
      · simp [h0, h1]
  · simp [h0]

/-- C5, on a run where every call succeeds: the shutdown carries the flags 0x11
and a null callback. -/
theorem forceUnlock_shutdown_only_registered_witness :
    (0x11 : Nat) &&& RmShutdownOnlyRegistered = RmShutdownOnlyRegistered
    ∧ (0x11 : Nat) &&& RmForceShutdown = RmForceShutdown
    ∧ (0x11 : Nat) = 0x11 ∧ (0 : Nat) = 0 ∧ (7 : Nat) = 7 % 2 ^ 32
    ∧ ∃ u, UTF16PtrFromString "C:\\db" = some u
        ∧ (ForceUnlockFile ⟨0, 7, 0, 0⟩ "C:\\db").calls = fullSessionLog 7 u 0x11 0 :=
  (forceUnlock_shutdown_only_registered ⟨0, 7, 0, 0⟩ "C:\\db").2 7 0x11 0 (by decide)

/-! ## Scan of the handle table -/

theorem readLE_lt (mem : Memory) (n a : Nat) : readLE mem a n < 256 ^ n := by
  induction n generalizing a with
  | zero => simp [readLE]
  | succ k ih =>
    have h1 := ih (a + 1)
    have h2 : mem a % 256 < 256 := Nat.mod_lt _ (by norm_num)
    simp only [readLE, pow_succ]
    omega

theorem snapshotEntry_pid_lt (mem : Memory) (base i : Nat) :
    (snapshotEntry mem base i).UniqueProcessId < 65536 := by
  have h := readLE_lt mem 2 (entryAddr base i)
  simpa [snapshotEntry, readEntry] using h

theorem pathsMatch_iff (a b : String) : pathsMatch a b = true ↔ suffixEquivalent b a := by
  simp [pathsMatch, HasSuffix, suffixEquivalent]

/-- The fold of `scanLoop` from an arbitrary state. -/
theorem scan_foldl (env : Env) (absPath : String) (base : Nat) (mem : Memory)
    (l : List Nat) (st : ScanState) :
    l.foldl (fun st i =>
        let addr := entryAddr base i
        let step := scanEntry env absPath i (readEntry mem addr)
        (⟨st.calls ++ step.1, st.reads ++ [addr], st.closedCount + step.2⟩ : ScanState)) st
      = ⟨st.calls ++ l.flatMap (fun i => (scanEntry env absPath i (snapshotEntry mem base i)).1),
         st.reads ++ l.map (entryAddr base),
         st.closedCount
           + (l.map (fun i => (scanEntry env absPath i (snapshotEntry mem base i)).2)).sum⟩ := by
  induction l generalizing st with
  | nil => simp
  | cons x xs ih =>
    simp only [List.foldl_cons, ih, List.flatMap_cons, List.map_cons, List.sum_cons,
      snapshotEntry, List.append_assoc, List.singleton_append, Nat.add_assoc]

theorem scanLoop_calls (env : Env) (absPath : String) (base : Nat) (mem : Memory) (n : Nat) :
    (scanLoop env absPath base mem n).calls
      = (List.range n).flatMap
          (fun i => (scanEntry env absPath i (snapshotEntry mem base i)).1) := by
  simp [scanLoop, scan_foldl]

theorem scanLoop_reads (env : Env) (absPath : String) (base : Nat) (mem : Memory) (n : Nat) :
    (scanLoop env absPath base mem n).reads = (List.range n).map (entryAddr base) := by
  simp [scanLoop, scan_foldl]

theorem scanLoop_closedCount (env : Env) (absPath : String) (base : Nat) (mem : Memory)
    (n : Nat) :
    (scanLoop env absPath base mem n).closedCount
      = ((List.range n).map
          (fun i => (scanEntry env absPath i (snapshotEntry mem base i)).2)).sum := by
  simp [scanLoop, scan_foldl]

/-- A run whose path resolution and kernel query succeeded, unfolded. -/
theorem closeSelf_snapshot (env : Env) (filePath abs0 : String) (sizes : List Nat)
    (base len : Nat) (mem : Memory)
    (hAbs : env.Abs filePath = .ok abs0)
    (hq : queryLoop env.replies (1024 * 1024) = (sizes, .snapshot base len mem)) :
    CloseSelfFileHandles env filePath
      = ⟨queryCalls sizes
            ++ (scanLoop env (normalizeTarget env.lower abs0) base mem
                  (numberOfHandles mem base)).calls,
          sizes,
          (scanLoop env (normalizeTarget env.lower abs0) base mem
            (numberOfHandles mem base)).reads,
          (scanLoop env (normalizeTarget env.lower abs0) base mem
            (numberOfHandles mem base)).closedCount,
          if (scanLoop env (normalizeTarget env.lower abs0) base mem
                (numberOfHandles mem base)).closedCount > 0 then .returned none
          else .returned (some (.noHandlesFound filePath)),
          some (normalizeTarget env.lower abs0)⟩ := by
  simp [CloseSelfFileHandles, hAbs, hq, queryCalls]

/-- The calls of one loop iteration on a snapshot entry, by cases. -/
theorem scanEntry_calls (env : Env) (target : String) (mem : Memory) (base i : Nat) :
    (scanEntry env target i (snapshotEntry mem base i)).1
      = if ¬ selfOwned env (snapshotEntry mem base i) then []
        else if env.dupRet i = 0 then
          [Call.DuplicateHandle env.currentProcess (snapshotEntry mem base i).HandleValue
            env.currentProcess 0 0 DUPLICATE_SAME_ACCESS]
        else
          [Call.DuplicateHandle env.currentProcess (snapshotEntry mem base i).HandleValue
            env.currentProcess 0 0 DUPLICATE_SAME_ACCESS,
           Call.GetFinalPathNameByHandleW (env.dupHandle i % 2 ^ 64) 32768 FILE_NAME_NORMALIZED,
           Call.CloseHandle .duplicate (env.dupHandle i % 2 ^ 64)]
          ++ (if closable env target i (snapshotEntry mem base i) then
                [Call.CloseHandle .original (snapshotEntry mem base i).HandleValue]
              else []) := by
  have hlt := snapshotEntry_pid_lt mem base i
  have hmod : (snapshotEntry mem base i).UniqueProcessId % 2 ^ 32
      = (snapshotEntry mem base i).UniqueProcessId := Nat.mod_eq_of_lt (by omega)
  unfold scanEntry
  rw [hmod]
  by_cases hs : selfOwned env (snapshotEntry mem base i)
  · have hs1 : (snapshotEntry mem base i).UniqueProcessId = currentPID env := hs
    by_cases hd : env.dupRet i = 0
    · simp [hs, hs1, hd]
    · by_cases hp : env.pathRet i = 0
      · simp [hs, hs1, hd, hp, closable, resolves]
      · by_cases hm : pathsMatch (normalizeHandlePath env.lower (env.pathText i)) target = true
        · have hm1 := (pathsMatch_iff _ _).mp hm
          have hm2 : suffixEquivalent (normalizeHandlePath env.lower (env.pathText i)) target := by
            rcases hm1 with h | h
            · exact Or.inr h
            · exact Or.inl h
          simp [hs, hs1, hd, hp, hm, hm2, closable, resolves]
        · have hm2 : ¬ suffixEquivalent (normalizeHandlePath env.lower (env.pathText i)) target := by
            intro h
            apply hm
            apply (pathsMatch_iff _ _).mpr
            rcases h with h | h
            · exact Or.inr h
            · exact Or.inl h
          simp [hs, hs1, hd, hp, hm, hm2, closable, resolves]
  · have hs1 : ¬ (snapshotEntry mem base i).UniqueProcessId = currentPID env := hs
    simp [hs, hs1]

/-- The increment of `closedCount` in one loop iteration on a snapshot entry. -/
theorem scanEntry_closed (env : Env) (target : String) (mem : Memory) (base i : Nat) :
    (scanEntry env target i (snapshotEntry mem base i)).2
      = if closable env target i (snapshotEntry mem base i) ∧ env.closeRet i ≠ 0 then 1
        else 0 := by
  have hlt := snapshotEntry_pid_lt mem base i
  have hmod : (snapshotEntry mem base i).UniqueProcessId % 2 ^ 32
      = (snapshotEntry mem base i).UniqueProcessId := Nat.mod_eq_of_lt (by omega)
  unfold scanEntry
  rw [hmod]
  by_cases hs : selfOwned env (snapshotEntry mem base i)
  · have hs1 : (snapshotEntry mem base i).UniqueProcessId = currentPID env := hs
    by_cases hd : env.dupRet i = 0
    · simp [hs1, hd, closable, resolves]
    · by_cases hp : env.pathRet i = 0
      · simp [hs1, hd, hp, closable, resolves]
      · by_cases hm : pathsMatch (normalizeHandlePath env.lower (env.pathText i)) target = true
        · have hm1 := (pathsMatch_iff _ _).mp hm
          have hm2 : suffixEquivalent (normalizeHandlePath env.lower (env.pathText i)) target := by
            rcases hm1 with h | h
            · exact Or.inr h
            · exact Or.inl h
          by_cases hc : env.closeRet i = 0 <;>
            simp [hs, hs1, hd, hp, hm, hm2, hc, closable, resolves]
        · have hm2 : ¬ suffixEquivalent (normalizeHandlePath env.lower (env.pathText i)) target := by
            intro h
            apply hm
            apply (pathsMatch_iff _ _).mpr
            rcases h with h | h
            · exact Or.inr h
            · exact Or.inl h
          simp [hs, hs1, hd, hp, hm, hm2, closable, resolves]
  · have hs1 : ¬ (snapshotEntry mem base i).UniqueProcessId = currentPID env := hs
    simp [hs1, closable, selfOwned]

theorem countP_flatMap_sum {α β : Type} (p : β → Bool) (f : α → List β) (l : List α) :
    (l.flatMap f).countP p = (l.map (fun a => (f a).countP p)).sum := by
  induction l with
  | nil => simp
  | cons x xs ih => simp [List.flatMap_cons, List.countP_append, ih]

theorem sum_indicator {α : Type} (q : α → Prop) [DecidablePred q] (l : List α) :
    (l.map (fun a => if q a then 1 else 0)).sum = l.countP (fun a => decide (q a)) := by
  induction l with
  | nil => simp
  | cons x xs ih =>
    by_cases h : q x
    · simp [List.countP_cons, h, ih]
      omega
    · simp [List.countP_cons, h, ih]

theorem queryCalls_no_handleOp (sizes : List Nat) :
    ∀ c ∈ queryCalls sizes, c.isHandleOp = false := by
  intro c hc
  simp only [queryCalls, List.mem_cons, List.mem_map] at hc
  rcases hc with rfl | ⟨a, _, rfl⟩ <;> rfl

theorem queryCalls_countP_close (site : CloseSite) (sizes : List Nat) :
    (queryCalls sizes).countP (Call.isCloseAt site) = 0 := by
  rw [List.countP_eq_zero]
  intro c hc
  simp only [queryCalls, List.mem_cons, List.mem_map] at hc
  rcases hc with rfl | ⟨a, _, rfl⟩ <;> simp [Call.isCloseAt]

/-- The log of a run whose path resolution and kernel query succeeded: the query
calls, then the segments of the entries in index order. -/
theorem closeSelf_calls (env : Env) (filePath abs0 : String) (sizes : List Nat)
    (base len : Nat) (mem : Memory)
    (hAbs : env.Abs filePath = .ok abs0)
    (hq : queryLoop env.replies (1024 * 1024) = (sizes, .snapshot base len mem)) :
    (CloseSelfFileHandles env filePath).calls
      = queryCalls sizes ++ (List.range (numberOfHandles mem base)).flatMap
          (segment env (normalizeTarget env.lower abs0) mem base) := by
  rw [closeSelf_snapshot env filePath abs0 sizes base len mem hAbs hq]
  simp only [scanLoop_calls]
  rfl

theorem segment_eq (env : Env) (target : String) (mem : Memory) (base i : Nat) :
    segment env target mem base i
      = if ¬ selfOwned env (snapshotEntry mem base i) then []
        else if env.dupRet i = 0 then
          [Call.DuplicateHandle env.currentProcess (snapshotEntry mem base i).HandleValue
            env.currentProcess 0 0 DUPLICATE_SAME_ACCESS]
        else
          [Call.DuplicateHandle env.currentProcess (snapshotEntry mem base i).HandleValue
            env.currentProcess 0 0 DUPLICATE_SAME_ACCESS,
           Call.GetFinalPathNameByHandleW (env.dupHandle i % 2 ^ 64) 32768 FILE_NAME_NORMALIZED,
           Call.CloseHandle .duplicate (env.dupHandle i % 2 ^ 64)]
          ++ (if closable env target i (snapshotEntry mem base i) then
                [Call.CloseHandle .original (snapshotEntry mem base i).HandleValue]
              else []) :=
  scanEntry_calls env target mem base i

theorem closable_dup (env : Env) (target : String) (i : Nat)
    (e : SYSTEM_HANDLE_TABLE_ENTRY_INFO) (h : closable env target i e) :
    selfOwned env e ∧ env.dupRet i ≠ 0 := ⟨h.1, h.2.1.1⟩

/-- A CloseHandle on an original handle is in segment `i` exactly when entry `i`
is closable, and then it is on the handle value of entry `i`. -/
theorem segment_closeOriginal (env : Env) (target : String) (mem : Memory) (base i h : Nat) :
    Call.CloseHandle .original h ∈ segment env target mem base i ↔
      (snapshotEntry mem base i).HandleValue = h
        ∧ closable env target i (snapshotEntry mem base i) := by
  rw [segment_eq]
  by_cases hc : closable env target i (snapshotEntry mem base i)
  · obtain ⟨hs, hd⟩ := closable_dup env target i _ hc
    simp [hs, hd, hc]
    exact eq_comm
  · by_cases hs : selfOwned env (snapshotEntry mem base i)
    · by_cases hd : env.dupRet i = 0 <;> simp [hs, hd, hc]
    · simp [hs, hc]

/-- Number of CloseHandle calls on an original in segment `i`. -/
theorem segment_countP_original (env : Env) (target : String) (mem : Memory) (base i : Nat) :
    (segment env target mem base i).countP (Call.isCloseAt .original)
      = if closable env target i (snapshotEntry mem base i) then 1 else 0 := by
  rw [segment_eq]
  by_cases hc : closable env target i (snapshotEntry mem base i)
  · obtain ⟨hs, hd⟩ := closable_dup env target i _ hc
    simp [hs, hd, hc, Call.isCloseAt, List.countP_cons]
  · by_cases hs : selfOwned env (snapshotEntry mem base i)
    · by_cases hd : env.dupRet i = 0 <;>
        simp [hs, hd, hc, Call.isCloseAt, List.countP_cons]
    · simp [hs, hc]

/-- Number of CloseHandle calls on a duplicate in segment `i`. -/
theorem segment_countP_duplicate (env : Env) (target : String) (mem : Memory) (base i : Nat) :
    (segment env target mem base i).countP (Call.isCloseAt .duplicate)
      = if selfOwned env (snapshotEntry mem base i) ∧ env.dupRet i ≠ 0 then 1 else 0 := by
  rw [segment_eq]
  by_cases hs : selfOwned env (snapshotEntry mem base i)
  · by_cases hd : env.dupRet i = 0
    · simp [hs, hd, Call.isCloseAt, List.countP_cons]
    · by_cases hc : closable env target i (snapshotEntry mem base i) <;>
        simp [hs, hd, hc, Call.isCloseAt, List.countP_cons]
  · simp [hs]

/-- The final `closedCount` of a run whose path resolution and kernel query
succeeded. -/
theorem closeSelf_closedCount_eq (env : Env) (filePath abs0 : String)
    (sizes : List Nat) (base len : Nat) (mem : Memory)
    (hAbs : env.Abs filePath = .ok abs0)
    (hq : queryLoop env.replies (1024 * 1024) = (sizes, .snapshot base len mem)) :
    (CloseSelfFileHandles env filePath).closedCount
      = closedOkCount env (normalizeTarget env.lower abs0) mem base := by
  rw [closeSelf_snapshot env filePath abs0 sizes base len mem hAbs hq]
  simp only [scanLoop_closedCount, scanEntry_closed]
  exact sum_indicator _ _

/-- The outcome of a run whose path resolution and kernel query succeeded. -/
theorem closeSelf_outcome_eq (env : Env) (filePath abs0 : String)
    (sizes : List Nat) (base len : Nat) (mem : Memory)
    (hAbs : env.Abs filePath = .ok abs0)
    (hq : queryLoop env.replies (1024 * 1024) = (sizes, .snapshot base len mem)) :
    (CloseSelfFileHandles env filePath).outcome
      = if (CloseSelfFileHandles env filePath).closedCount > 0 then .returned none
        else .returned (some (.noHandlesFound filePath)) := by
  rw [closeSelf_snapshot env filePath abs0 sizes base len mem hAbs hq]

/-- C3. In a run whose path resolution and kernel query succeeded, a CloseHandle
on an original handle value `h` is in the log exactly when some snapshot entry
with handle value `h` is owned by the caller, resolves to a path, and has a
normalised path suffix-equivalent to the normalised target; the log is the query
calls followed by the per-entry segments in order; the segment of an entry of
another process is empty, and the segment of any entry that is not closable
holds no CloseHandle on an original. -/
theorem closeSelf_closes_exactly_closable (env : Env) (filePath abs0 : String)
    (sizes : List Nat) (base len : Nat) (mem : Memory)
    (hAbs : env.Abs filePath = .ok abs0)
    (hq : queryLoop env.replies (1024 * 1024) = (sizes, .snapshot base len mem)) :
    (∀ h, Call.CloseHandle .original h ∈ (CloseSelfFileHandles env filePath).calls ↔
        ∃ i, i < numberOfHandles mem base ∧ (snapshotEntry mem base i).HandleValue = h
          ∧ closable env (normalizeTarget env.lower abs0) i (snapshotEntry mem base i))
    ∧ (CloseSelfFileHandles env filePath).calls
        = queryCalls sizes ++ (List.range (numberOfHandles mem base)).flatMap
            (segment env (normalizeTarget env.lower abs0) mem base)
    ∧ (∀ i, i < numberOfHandles mem base →
        ¬ selfOwned env (snapshotEntry mem base i) →
        segment env (normalizeTarget env.lower abs0) mem base i = [])
    ∧ (∀ i, i < numberOfHandles mem base →
        ¬ closable env (normalizeTarget env.lower abs0) i (snapshotEntry mem base i) →
        ∀ h, Call.CloseHandle .original h
          ∉ segment env (normalizeTarget env.lower abs0) mem base i) := by
  have hcalls := closeSelf_calls env filePath abs0 sizes base len mem hAbs hq
  refine ⟨?_, hcalls, ?_, ?_⟩
  · intro h
    rw [hcalls, List.mem_append]
    constructor
    · rintro (hpre | hscan)
      · have := queryCalls_no_handleOp sizes _ hpre
        simp [Call.isHandleOp] at this
      · obtain ⟨i, hi, hmem⟩ := List.mem_flatMap.mp hscan
        exact ⟨i, List.mem_range.mp hi, (segment_closeOriginal _ _ _ _ _ _).mp hmem⟩
    · rintro ⟨i, hi, hv, hc⟩
      exact Or.inr (List.mem_flatMap.mpr
        ⟨i, List.mem_range.mpr hi, (segment_closeOriginal _ _ _ _ _ _).mpr ⟨hv, hc⟩⟩)
  · intro i _ hs
    rw [segment_eq]
    simp [hs]
  · intro i _ hc h hmem
    exact hc ((segment_closeOriginal _ _ _ _ _ _).mp hmem).2

/-- C3, at the two-record snapshot: the only original handle closed is 0x44. -/
theorem closeSelf_closes_exactly_closable_witness :
    Call.CloseHandle .original 0x44
          ∈ (CloseSelfFileHandles (demoEnv 1) "C:\\data\\db.sqlite").calls ↔
        ∃ i, i < numberOfHandles demoMem 4096
          ∧ (snapshotEntry demoMem 4096 i).HandleValue = 0x44
          ∧ closable (demoEnv 1) (normalizeTarget (demoEnv 1).lower "C:\\data\\db.sqlite") i
              (snapshotEntry demoMem 4096 i) :=
  (closeSelf_closes_exactly_closable (demoEnv 1) "C:\\data\\db.sqlite"
    "C:\\data\\db.sqlite" [1048576] 4096 1048576 demoMem rfl rfl).1 0x44

/-- C4, as stated, fails: one self-owned entry resolves to the target, the kernel
query succeeded, CloseHandle on the original returned 0, and the run ends with
`closedCount` 0 and the no-handles-found error. -/
theorem closeSelf_count_counterexample :
    queryLoop (demoEnv 0).replies (1024 * 1024)
        = ([1048576], .snapshot 4096 1048576 demoMem)
    ∧ closableCount (demoEnv 0) (normalizeTarget Char.toLower "C:\\data\\db.sqlite")
        demoMem 4096 = 1
    ∧ (CloseSelfFileHandles (demoEnv 0) "C:\\data\\db.sqlite").calls.countP
        (Call.isCloseAt .original) = 1
    ∧ (CloseSelfFileHandles (demoEnv 0) "C:\\data\\db.sqlite").closedCount = 0
    ∧ (CloseSelfFileHandles (demoEnv 0) "C:\\data\\db.sqlite").outcome
        = .returned (some (.noHandlesFound "C:\\data\\db.sqlite")) := by
  refine ⟨rfl, ?_, ?_, ?_, ?_⟩ <;> decide

/-- C4, amended. In a run whose path resolution and kernel query succeeded, with N
closable entries: CloseHandle is issued on exactly N originals; `closedCount` is
the number of closable entries whose CloseHandle returned non-zero, at most N,
and equal to N when each of these calls returns non-zero; the run returns nil
exactly when `closedCount` is positive and the no-handles-found error exactly
when it is 0. -/
theorem closeSelf_closedCount (env : Env) (filePath abs0 : String)
    (sizes : List Nat) (base len : Nat) (mem : Memory)
    (hAbs : env.Abs filePath = .ok abs0)
    (hq : queryLoop env.replies (1024 * 1024) = (sizes, .snapshot base len mem)) :
    (CloseSelfFileHandles env filePath).calls.countP (Call.isCloseAt .original)
        = closableCount env (normalizeTarget env.lower abs0) mem base
    ∧ (CloseSelfFileHandles env filePath).closedCount
        = closedOkCount env (normalizeTarget env.lower abs0) mem base
    ∧ (CloseSelfFileHandles env filePath).closedCount
        ≤ closableCount env (normalizeTarget env.lower abs0) mem base
    ∧ ((CloseSelfFileHandles env filePath).outcome = .returned none ↔
        0 < (CloseSelfFileHandles env filePath).closedCount)
    ∧ ((CloseSelfFileHandles env filePath).outcome
          = .returned (some (.noHandlesFound filePath)) ↔
        (CloseSelfFileHandles env filePath).closedCount = 0)
    ∧ ((∀ i, i < numberOfHandles mem base →
          closable env (normalizeTarget env.lower abs0) i (snapshotEntry mem base i) →
          env.closeRet i ≠ 0) →
        (CloseSelfFileHandles env filePath).closedCount
          = closableCount env (normalizeTarget env.lower abs0) mem base) := by
  have hcalls := closeSelf_calls env filePath abs0 sizes base len mem hAbs hq
  have hcc := closeSelf_closedCount_eq env filePath abs0 sizes base len mem hAbs hq
  have hout := closeSelf_outcome_eq env filePath abs0 sizes base len mem hAbs hq
  refine ⟨?_, hcc, ?_, ?_, ?_, ?_⟩
  · rw [hcalls, List.countP_append, queryCalls_countP_close, Nat.zero_add,
      countP_flatMap_sum]
    simp only [segment_countP_original]
    exact sum_indicator _ _
  · rw [hcc]
    apply List.countP_mono_left
    intro i _ hi
    simp only [decide_eq_true_eq] at hi ⊢
    exact hi.1
  · rw [hout]
    by_cases h : (CloseSelfFileHandles env filePath).closedCount > 0
    · simp [h]
    · simp [h]
  · rw [hout]
    by_cases h : (CloseSelfFileHandles env filePath).closedCount > 0
    · simp [h]
      omega
    · simp [h]
      omega
  · intro hall
    rw [hcc]
    apply List.countP_congr
    intro i hi
    simp only [decide_eq_true_eq]
    exact ⟨fun h => h.1, fun h => ⟨h, hall i (List.mem_range.mp hi) h⟩⟩

/-- C4 amended, at the two-record snapshot with a CloseHandle that succeeds. -/
theorem closeSelf_closedCount_witness :
    (CloseSelfFileHandles (demoEnv 1) "C:\\data\\db.sqlite").closedCount
        = closedOkCount (demoEnv 1) (normalizeTarget (demoEnv 1).lower "C:\\data\\db.sqlite")
            demoMem 4096
    ∧ closedOkCount (demoEnv 1) (normalizeTarget (demoEnv 1).lower "C:\\data\\db.sqlite")
            demoMem 4096 = 1 :=
  ⟨(closeSelf_closedCount (demoEnv 1) "C:\\data\\db.sqlite"
    "C:\\data\\db.sqlite" [1048576] 4096 1048576 demoMem rfl rfl).2.1, by decide⟩

/-- C9. In a run whose path resolution and kernel query succeeded, the log is the
query calls followed by the per-entry segments in index order. For a self-owned
entry whose duplication succeeds, the segment starts with the DuplicateHandle
call, the path query on the duplicate and the CloseHandle on the duplicate, in
this order, and holds exactly one CloseHandle on a duplicate, whatever the path
query returns and whether or not the path matches. For any other entry the
segment holds no CloseHandle at all. Every DuplicateHandle call of the run has
desired access 0, no inheritance, and the option DUPLICATE_SAME_ACCESS. -/
theorem closeSelf_duplicate_closed_once (env : Env) (filePath abs0 : String)
    (sizes : List Nat) (base len : Nat) (mem : Memory)
    (hAbs : env.Abs filePath = .ok abs0)
    (hq : queryLoop env.replies (1024 * 1024) = (sizes, .snapshot base len mem)) :
    (CloseSelfFileHandles env filePath).calls
        = queryCalls sizes ++ (List.range (numberOfHandles mem base)).flatMap
            (segment env (normalizeTarget env.lower abs0) mem base)
    ∧ (∀ i, i < numberOfHandles mem base →
        selfOwned env (snapshotEntry mem base i) → env.dupRet i ≠ 0 →
        (∃ rest, segment env (normalizeTarget env.lower abs0) mem base i
            = [Call.DuplicateHandle env.currentProcess (snapshotEntry mem base i).HandleValue
                 env.currentProcess 0 0 DUPLICATE_SAME_ACCESS,
               Call.GetFinalPathNameByHandleW (env.dupHandle i % 2 ^ 64) 32768
                 FILE_NAME_NORMALIZED,
               Call.CloseHandle .duplicate (env.dupHandle i % 2 ^ 64)] ++ rest)
        ∧ (segment env (normalizeTarget env.lower abs0) mem base i).countP
            (Call.isCloseAt .duplicate) = 1)
    ∧ (∀ i, i < numberOfHandles mem base →
        ¬ (selfOwned env (snapshotEntry mem base i) ∧ env.dupRet i ≠ 0) →
        ∀ site h, Call.CloseHandle site h
          ∉ segment env (normalizeTarget env.lower abs0) mem base i)
    ∧ (∀ a b c d e f,
        Call.DuplicateHandle a b c d e f ∈ (CloseSelfFileHandles env filePath).calls →
        d = 0 ∧ e = 0 ∧ f = DUPLICATE_SAME_ACCESS)
    ∧ (CloseSelfFileHandles env filePath).calls.countP (Call.isCloseAt .duplicate)
        = (List.range (numberOfHandles mem base)).countP
            (fun i => decide (selfOwned env (snapshotEntry mem base i) ∧ env.dupRet i ≠ 0)) := by
  have hcalls := closeSelf_calls env filePath abs0 sizes base len mem hAbs hq
  refine ⟨hcalls, ?_, ?_, ?_, ?_⟩
  · intro i _ hs hd
    refine ⟨?_, ?_⟩
    · rw [segment_eq]
      simp only [hs, not_true_eq_false, if_false, hd]
      exact ⟨_, rfl⟩
    · rw [segment_countP_duplicate]
      simp [hs, hd]
  · intro i _ hn site h hmem
    rw [segment_eq] at hmem
    by_cases hs : selfOwned env (snapshotEntry mem base i)
    · have hd : env.dupRet i = 0 := by
        by_contra hd
        exact hn ⟨hs, hd⟩
      simp [hs, hd] at hmem
    · simp [hs] at hmem
  · intro a b c d e f hmem
    rw [hcalls, List.mem_append] at hmem
    rcases hmem with hpre | hscan
    · have := queryCalls_no_handleOp sizes _ hpre
      simp [Call.isHandleOp] at this
    · obtain ⟨i, _, hseg⟩ := List.mem_flatMap.mp hscan
      rw [segment_eq] at hseg
      by_cases hs : selfOwned env (snapshotEntry mem base i)
      · by_cases hd : env.dupRet i = 0
        · simp [hs, hd] at hseg
          exact ⟨hseg.2.2.2.1, hseg.2.2.2.2.1, hseg.2.2.2.2.2⟩
        · by_cases hc : closable env (normalizeTarget env.lower abs0) i
              (snapshotEntry mem base i)
          · simp [hs, hd, hc] at hseg
            exact ⟨hseg.2.2.2.1, hseg.2.2.2.2.1, hseg.2.2.2.2.2⟩
          · simp [hs, hd, hc] at hseg
            exact ⟨hseg.2.2.2.1, hseg.2.2.2.2.1, hseg.2.2.2.2.2⟩
      · simp [hs] at hseg
  · rw [hcalls, List.countP_append, queryCalls_countP_close, Nat.zero_add,
      countP_flatMap_sum]
    simp only [segment_countP_duplicate]
    exact sum_indicator _ _

/-- C9, at the two-record snapshot: the segment of entry 0 closes its duplicate
exactly once. -/
theorem closeSelf_duplicate_closed_once_witness :
    (segment (demoEnv 1) (normalizeTarget (demoEnv 1).lower "C:\\data\\db.sqlite")
        demoMem 4096 0).countP (Call.isCloseAt .duplicate) = 1 :=
  ((closeSelf_duplicate_closed_once (demoEnv 1) "C:\\data\\db.sqlite"
    "C:\\data\\db.sqlite" [1048576] 4096 1048576 demoMem rfl rfl).2.1 0
      (by decide) (by decide) (by decide)).2

/-- C10. When the caller's process id exceeds 65535, no run of
`CloseSelfFileHandles`, on any path and any snapshot, issues a DuplicateHandle or
a CloseHandle, and a run whose path resolution and kernel query succeeded ends
with the no-handles-found error. When the caller's process id is at most 65535,
every snapshot entry whose 16-bit owner field equals it is processed: its
segment starts with the DuplicateHandle call on its handle value, and that call
is in the log. -/
theorem closeSelf_pid_16bit (env : Env) (filePath : String) :
    (65535 < currentPID env →
        (∀ c ∈ (CloseSelfFileHandles env filePath).calls, c.isHandleOp = false)
        ∧ (∀ abs0 sizes base len mem, env.Abs filePath = .ok abs0 →
            queryLoop env.replies (1024 * 1024) = (sizes, .snapshot base len mem) →
            (CloseSelfFileHandles env filePath).outcome
              = .returned (some (.noHandlesFound filePath))))
    ∧ (currentPID env ≤ 65535 →
        ∀ abs0 sizes base len mem, env.Abs filePath = .ok abs0 →
          queryLoop env.replies (1024 * 1024) = (sizes, .snapshot base len mem) →
          ∀ i, i < numberOfHandles mem base →
            (snapshotEntry mem base i).UniqueProcessId = currentPID env →
            (segment env (normalizeTarget env.lower abs0) mem base i).head?
                = some (Call.DuplicateHandle env.currentProcess
                    (snapshotEntry mem base i).HandleValue env.currentProcess 0 0
                    DUPLICATE_SAME_ACCESS)
            ∧ Call.DuplicateHandle env.currentProcess
                (snapshotEntry mem base i).HandleValue env.currentProcess 0 0
                DUPLICATE_SAME_ACCESS ∈ (CloseSelfFileHandles env filePath).calls) := by
  constructor
  · intro hpid
    have hnot : ∀ (mem : Memory) (base i : Nat), ¬ selfOwned env (snapshotEntry mem base i) := by
      intro mem base i hs
      have h1 := snapshotEntry_pid_lt mem base i
      have h2 : (snapshotEntry mem base i).UniqueProcessId = currentPID env := hs
      omega
    have hseg : ∀ (t : String) (mem : Memory) (base i : Nat), segment env t mem base i = [] := by
      intro t mem base i
      rw [segment_eq]
      simp [hnot mem base i]
    have hclosable : ∀ (t : String) (mem : Memory) (base i : Nat),
        ¬ closable env t i (snapshotEntry mem base i) := fun t mem base i h =>
      hnot mem base i h.1
    constructor
    · intro c hc
      cases hA : env.Abs filePath with
      | error cause =>
        simp [CloseSelfFileHandles, hA] at hc
      | ok abs0 =>
        cases hq : queryLoop env.replies (1024 * 1024) with
        | mk sizes res =>
          cases res with
          | snapshot base len mem =>
            rw [closeSelf_calls env filePath abs0 sizes base len mem hA hq] at hc
            rcases List.mem_append.mp hc with hpre | hscan
            · exact queryCalls_no_handleOp sizes c hpre
            · obtain ⟨i, _, hmem⟩ := List.mem_flatMap.mp hscan
              rw [hseg] at hmem
              cases hmem
          | failed status =>
            have hc2 : c ∈ queryCalls sizes := by
              simpa [CloseSelfFileHandles, hA, hq, queryCalls] using hc
            exact queryCalls_no_handleOp sizes c hc2
          | panicked =>
            have hc2 : c ∈ (queryCalls sizes).dropLast := by
              simpa [CloseSelfFileHandles, hA, hq, queryCalls] using hc
            exact queryCalls_no_handleOp sizes c (List.dropLast_subset _ hc2)
          | pending =>
            have hc2 : c ∈ queryCalls sizes := by
              simpa [CloseSelfFileHandles, hA, hq, queryCalls] using hc
            exact queryCalls_no_handleOp sizes c hc2
    · intro abs0 sizes base len mem hA hq
      have hzero : (CloseSelfFileHandles env filePath).closedCount = 0 := by
        rw [closeSelf_closedCount_eq env filePath abs0 sizes base len mem hA hq,
          closedOkCount, List.countP_eq_zero]
        intro i _ hi
        simp only [decide_eq_true_eq] at hi
        exact hclosable _ mem base i hi.1
      rw [closeSelf_outcome_eq env filePath abs0 sizes base len mem hA hq, hzero]
      rfl
  · intro _ abs0 sizes base len mem hA hq i hi hown
    have hs : selfOwned env (snapshotEntry mem base i) := hown
    have hhead : (segment env (normalizeTarget env.lower abs0) mem base i).head?
        = some (Call.DuplicateHandle env.currentProcess
            (snapshotEntry mem base i).HandleValue env.currentProcess 0 0
            DUPLICATE_SAME_ACCESS) := by
      rw [segment_eq]
      by_cases hd : env.dupRet i = 0 <;> simp [hs, hd]
    refine ⟨hhead, ?_⟩
    rw [closeSelf_calls env filePath abs0 sizes base len mem hA hq]
    apply List.mem_append_right
    exact List.mem_flatMap.mpr ⟨i, List.mem_range.mpr hi, List.mem_of_mem_head? hhead⟩

/-- C10, for a caller with process id 70000 on the two-record snapshot. -/
theorem closeSelf_pid_16bit_witness :
    (∀ c ∈ (CloseSelfFileHandles bigPidEnv "C:\\data\\db.sqlite").calls,
        c.isHandleOp = false)
    ∧ (CloseSelfFileHandles bigPidEnv "C:\\data\\db.sqlite").outcome
        = .returned (some (.noHandlesFound "C:\\data\\db.sqlite")) :=
  ⟨((closeSelf_pid_16bit bigPidEnv "C:\\data\\db.sqlite").1 (by decide)).1,
   ((closeSelf_pid_16bit bigPidEnv "C:\\data\\db.sqlite").1 (by decide)).2
     "C:\\data\\db.sqlite" [1048576] 4096 1048576 demoMem rfl rfl⟩

/-! ## Query loop and snapshot decoding -/

theorem queryLoop_nil (size : Nat) :
    (queryLoop [] size).1 = [size] ∧ ∀ base len mem,
      (queryLoop [] size).2 ≠ .snapshot base len mem := by
  unfold queryLoop
  by_cases h0 : size = 0
  · rw [if_pos h0]
    exact ⟨rfl, fun _ _ _ h => by cases h⟩
  · rw [if_neg h0]
    exact ⟨rfl, fun _ _ _ h => by cases h⟩

theorem queryLoop_cons_zero (r : QueryReply) (rs : List QueryReply) (size : Nat)
    (h0 : size = 0) : queryLoop (r :: rs) size = ([size], .panicked) := by
  rw [queryLoop, if_pos h0]

theorem queryLoop_cons_ok (r : QueryReply) (rs : List QueryReply) (size : Nat)
    (h0 : size ≠ 0) (h1 : r.status = 0) :
    queryLoop (r :: rs) size = ([size], .snapshot r.base size r.mem) := by
  rw [queryLoop, if_neg h0, if_pos h1]

theorem queryLoop_cons_retry (r : QueryReply) (rs : List QueryReply) (size : Nat)
    (h0 : size ≠ 0) (h2 : r.status = 0xC0000004) :
    queryLoop (r :: rs) size
      = (size :: (queryLoop rs ((r.returnLength % 2 ^ 32 + 1024) % 2 ^ 32)).1,
         (queryLoop rs ((r.returnLength % 2 ^ 32 + 1024) % 2 ^ 32)).2) := by
  have h1 : r.status ≠ 0 := by rw [h2]; decide
  rw [queryLoop, if_neg h0, if_neg h1, if_pos h2]

theorem queryLoop_cons_failed (r : QueryReply) (rs : List QueryReply) (size : Nat)
    (h0 : size ≠ 0) (h1 : r.status ≠ 0) (h2 : r.status ≠ 0xC0000004) :
    queryLoop (r :: rs) size = ([size], .failed r.status) := by
  rw [queryLoop, if_neg h0, if_neg h1, if_neg h2]

theorem queryLoop_head (rs : List QueryReply) (size : Nat) :
    (queryLoop rs size).1.head? = some size := by
  cases rs with
  | nil => rw [(queryLoop_nil size).1]; rfl
  | cons r rs =>
    by_cases h0 : size = 0
    · rw [queryLoop_cons_zero r rs size h0]; rfl
    · by_cases h1 : r.status = 0
      · rw [queryLoop_cons_ok r rs size h0 h1]; rfl
      · by_cases h2 : r.status = 0xC0000004
        · rw [queryLoop_cons_retry r rs size h0 h2]; rfl
        · rw [queryLoop_cons_failed r rs size h0 h1 h2]; rfl

theorem queryLoop_retry (rs : List QueryReply) (size k : Nat)
    (hk : k + 1 < (queryLoop rs size).1.length) :
    ∃ r, rs[k]? = some r ∧ r.status = 0xC0000004
      ∧ (queryLoop rs size).1[k + 1]? = some ((r.returnLength % 2 ^ 32 + 1024) % 2 ^ 32) := by
  induction rs generalizing size k with
  | nil =>
    rw [(queryLoop_nil size).1] at hk
    simp at hk
  | cons r rs ih =>
    by_cases h0 : size = 0
    · rw [queryLoop_cons_zero r rs size h0] at hk
      simp at hk
    · by_cases h1 : r.status = 0
      · rw [queryLoop_cons_ok r rs size h0 h1] at hk
        simp at hk
      · by_cases h2 : r.status = 0xC0000004
        · rw [queryLoop_cons_retry r rs size h0 h2] at hk ⊢
          simp only [List.length_cons] at hk
          cases k with
          | zero =>
            refine ⟨r, by simp, h2, ?_⟩
            simp only [Nat.zero_add, List.getElem?_cons_succ]
            have := queryLoop_head rs ((r.returnLength % 2 ^ 32 + 1024) % 2 ^ 32)
            rw [List.head?_eq_getElem?] at this
            exact this
          | succ j =>
            obtain ⟨r2, hr, hs, hn⟩ :=
              ih ((r.returnLength % 2 ^ 32 + 1024) % 2 ^ 32) j (by omega)
            exact ⟨r2, by simpa using hr, hs, by simpa using hn⟩
        · rw [queryLoop_cons_failed r rs size h0 h1 h2] at hk
          simp at hk

theorem queryLoop_increasing (rs : List QueryReply) (size : Nat)
    (h : ∀ (k : Nat) (r : QueryReply) (s : Nat), rs[k]? = some r →
      (queryLoop rs size).1[k]? = some s →
      r.status = 0xC0000004 → s ≤ r.returnLength ∧ r.returnLength + 1024 < 2 ^ 32) :
    List.Chain' (· < ·) (queryLoop rs size).1 := by
  induction rs generalizing size with
  | nil => rw [(queryLoop_nil size).1]; simp
  | cons r rs ih =>
    by_cases h0 : size = 0
    · rw [queryLoop_cons_zero r rs size h0]; simp
    · by_cases h1 : r.status = 0
      · rw [queryLoop_cons_ok r rs size h0 h1]; simp
      · by_cases h2 : r.status = 0xC0000004
        · rw [queryLoop_cons_retry r rs size h0 h2] at h ⊢
          have hr := h 0 r size (by simp) (by simp) h2
          have hnext : (r.returnLength % 2 ^ 32 + 1024) % 2 ^ 32 = r.returnLength + 1024 := by
            omega
          rw [List.chain'_cons']
          constructor
          · intro y hy
            rw [queryLoop_head] at hy
            simp only [Option.mem_def, Option.some.injEq] at hy
            omega
          · apply ih
            intro k r2 s hk hs hst
            exact h (k + 1) r2 s (by simpa using hk) (by simpa using hs) hst
        · rw [queryLoop_cons_failed r rs size h0 h1 h2]; simp

theorem queryLoop_snapshot_len (rs : List QueryReply) (size : Nat) (sizes : List Nat)
    (base len : Nat) (mem : Memory)
    (hq : queryLoop rs size = (sizes, .snapshot base len mem)) :
    sizes.getLast? = some len := by
  induction rs generalizing size sizes with
  | nil =>
    have h := (queryLoop_nil size).2 base len mem
    rw [hq] at h
    exact absurd rfl h
  | cons r rs ih =>
    by_cases h0 : size = 0
    · rw [queryLoop_cons_zero r rs size h0] at hq
      cases hq
    · by_cases h1 : r.status = 0
      · rw [queryLoop_cons_ok r rs size h0 h1] at hq
        cases hq
        rfl
      · by_cases h2 : r.status = 0xC0000004
        · rw [queryLoop_cons_retry r rs size h0 h2] at hq
          have hs : size :: (queryLoop rs ((r.returnLength % 2 ^ 32 + 1024) % 2 ^ 32)).1
              = sizes := congrArg Prod.fst hq
          have hres : (queryLoop rs ((r.returnLength % 2 ^ 32 + 1024) % 2 ^ 32)).2
              = .snapshot base len mem := congrArg Prod.snd hq
          have hrec := ih ((r.returnLength % 2 ^ 32 + 1024) % 2 ^ 32)
            (queryLoop rs ((r.returnLength % 2 ^ 32 + 1024) % 2 ^ 32)).1
            (Prod.ext rfl hres)
          subst hs
          rw [List.getLast?_cons, hrec]
          rfl
        · rw [queryLoop_cons_failed r rs size h0 h1 h2] at hq
          cases hq

theorem closeSelf_sizes (env : Env) (filePath abs0 : String)
    (hAbs : env.Abs filePath = .ok abs0) :
    (CloseSelfFileHandles env filePath).sizes = (queryLoop env.replies (1024 * 1024)).1 := by
  unfold CloseSelfFileHandles
  simp only [hAbs]
  cases hq : (queryLoop env.replies (1024 * 1024)).2 <;> rfl

theorem entryAddr_eq (base len n i : Nat) (hb : base + len ≤ 2 ^ 64)
    (hn : handlesOffset + n * entrySize ≤ len) (hi : i < n) :
    entryAddr base i = base + handlesOffset + i * entrySize
      ∧ base + handlesOffset + (i + 1) * entrySize ≤ base + len := by
  have h1 : (i + 1) * entrySize ≤ n * entrySize := Nat.mul_le_mul_right _ hi
  have h2 : (i + 1) * entrySize = i * entrySize + entrySize := by ring
  unfold entryAddr
  simp only [entrySize, handlesOffset] at *
  omega

theorem closeSelf_reads_eq (env : Env) (filePath abs0 : String)
    (sizes : List Nat) (base len : Nat) (mem : Memory)
    (hAbs : env.Abs filePath = .ok abs0)
    (hq : queryLoop env.replies (1024 * 1024) = (sizes, .snapshot base len mem)) :
    (CloseSelfFileHandles env filePath).reads
        = (List.range (numberOfHandles mem base)).map (entryAddr base) := by
  rw [closeSelf_snapshot env filePath abs0 sizes base len mem hAbs hq]
  simp only [scanLoop_reads]

/-- C7, as stated, fails: the kernel answers "buffer too small" with a required
length of 0, and the retry uses a buffer of 1024 bytes after one of 1 MiB. -/
theorem closeSelf_buffer_shrinks :
    (CloseSelfFileHandles shrinkEnv "C:\\data\\db.sqlite").sizes = [1048576, 1024]
    ∧ ¬ List.Chain' (· ≤ ·) (CloseSelfFileHandles shrinkEnv "C:\\data\\db.sqlite").sizes := by
  have h : (CloseSelfFileHandles shrinkEnv "C:\\data\\db.sqlite").sizes = [1048576, 1024] := rfl
  refine ⟨h, ?_⟩
  rw [h]
  simp

/-- C7, amended. The first attempt uses 1 MiB; attempt k+1 exists only after a
"buffer too small" answer to attempt k and its buffer size is the reported
length plus 1024, in 32-bit arithmetic; the sizes increase strictly from
attempt to attempt when every "buffer too small" answer reports a length that
is at least the size of the buffer it refused and below 2^32 - 1024. -/
theorem closeSelf_buffer_growth (env : Env) (filePath abs0 : String)
    (hAbs : env.Abs filePath = .ok abs0) :
    (CloseSelfFileHandles env filePath).sizes.head? = some (1024 * 1024)
    ∧ (∀ k, k + 1 < (CloseSelfFileHandles env filePath).sizes.length →
        ∃ r, env.replies[k]? = some r ∧ r.status = 0xC0000004
          ∧ (CloseSelfFileHandles env filePath).sizes[k + 1]?
              = some ((r.returnLength % 2 ^ 32 + 1024) % 2 ^ 32))
    ∧ ((∀ (k : Nat) (r : QueryReply) (s : Nat), env.replies[k]? = some r →
          (CloseSelfFileHandles env filePath).sizes[k]? = some s →
          r.status = 0xC0000004 → s ≤ r.returnLength ∧ r.returnLength + 1024 < 2 ^ 32) →
        List.Chain' (· < ·) (CloseSelfFileHandles env filePath).sizes) := by
  rw [closeSelf_sizes env filePath abs0 hAbs]
  exact ⟨queryLoop_head _ _, queryLoop_retry _ _, queryLoop_increasing _ _⟩

/-- C7 amended, for a kernel that asks for 2000000 bytes: the second buffer has
2001024 bytes. -/
theorem closeSelf_buffer_growth_witness :
    (CloseSelfFileHandles growEnv "C:\\data\\db.sqlite").sizes = [1048576, 2001024]
    ∧ List.Chain' (· < ·) (CloseSelfFileHandles growEnv "C:\\data\\db.sqlite").sizes :=
  ⟨rfl, (closeSelf_buffer_growth growEnv "C:\\data\\db.sqlite" "C:\\data\\db.sqlite" rfl).2.2
    (by
      intro k r s hk hs hst
      have hsz : (CloseSelfFileHandles growEnv "C:\\data\\db.sqlite").sizes
          = [1048576, 2001024] := rfl
      rw [hsz] at hs
      match k with
      | 0 =>
        simp [growEnv] at hk hs
        subst hk hs
        exact ⟨by decide, by decide⟩
      | 1 =>
        simp [growEnv] at hk
        subst hk
        simp at hst
      | k + 2 => simp [growEnv] at hk)⟩

/-- C8, as stated, fails: the first query succeeds on the 1 MiB buffer at address
4096, every byte of the buffer is 0xFF, so the count field holds 4294967295; the
scan dereferences record 43690, which ends 16 bytes past the end of the
buffer. -/
theorem closeSelf_reads_past_buffer :
    queryLoop ffEnv.replies (1024 * 1024)
        = ([1048576], .snapshot 4096 1048576 (fun _ => 255))
    ∧ numberOfHandles (fun _ => 255) 4096 = 4294967295
    ∧ entryAddr 4096 43690 ∈ (CloseSelfFileHandles ffEnv "C:\\data\\db.sqlite").reads
    ∧ entryAddr 4096 43690 + entrySize = 4096 + 1048576 + 16 := by
  refine ⟨rfl, by decide, ?_, by decide⟩
  have hr := closeSelf_reads_eq ffEnv "C:\\data\\db.sqlite" "C:\\data\\db.sqlite"
    [1048576] 4096 1048576 (fun _ => 255) rfl rfl
  have hlt : 43690 < numberOfHandles (fun _ => 255) 4096 := by decide
  rw [hr]
  exact List.mem_map.mpr ⟨43690, List.mem_range.mpr hlt, rfl⟩

/-- C8, amended. After a successful query the scan dereferences, for every i below
the count field, the record at `entryAddr base i`, without comparing it with the
buffer length; the buffer length is the size of the last attempt; when the
buffer lies inside the address space and the count field is consistent with the
buffer length (record array offset + count × record size ≤ length), record i
starts at offset 8 + 24 i and ends inside the buffer. -/
theorem closeSelf_reads_in_buffer (env : Env) (filePath abs0 : String)
    (sizes : List Nat) (base len : Nat) (mem : Memory)
    (hAbs : env.Abs filePath = .ok abs0)
    (hq : queryLoop env.replies (1024 * 1024) = (sizes, .snapshot base len mem)) :
    (CloseSelfFileHandles env filePath).reads
        = (List.range (numberOfHandles mem base)).map (entryAddr base)
    ∧ sizes.getLast? = some len
    ∧ (base + len ≤ 2 ^ 64 →
        handlesOffset + numberOfHandles mem base * entrySize ≤ len →
        ∀ i, i < numberOfHandles mem base →
          entryAddr base i = base + handlesOffset + i * entrySize
          ∧ base + handlesOffset + (i + 1) * entrySize ≤ base + len) := by
  refine ⟨closeSelf_reads_eq env filePath abs0 sizes base len mem hAbs hq,
    queryLoop_snapshot_len _ _ _ _ _ _ hq, ?_⟩
  · intro hb hn i hi
    exact entryAddr_eq base len _ i hb hn hi

/-- C8 amended, at the two-record snapshot: both records lie inside the 1 MiB
buffer. -/
theorem closeSelf_reads_in_buffer_witness :
    entryAddr 4096 1 = 4096 + handlesOffset + 1 * entrySize
      ∧ 4096 + handlesOffset + (1 + 1) * entrySize ≤ 4096 + 1048576 :=
  (closeSelf_reads_in_buffer (demoEnv 1) "C:\\data\\db.sqlite" "C:\\data\\db.sqlite"
    [1048576] 4096 1048576 demoMem rfl rfl).2.2 (by decide) (by decide) 1 (by decide)

/-! ## Path normalisation -/

theorem toNat_ofNat_small (m : Nat) (h : m < 0xD800) : (Char.ofNat m).toNat = m := by
  have hv : m.isValidChar := Or.inl h
  unfold Char.ofNat
  rw [dif_pos hv]
  simp only [Char.ofNatAux, Char.toNat, UInt32.toNat]
  rfl

theorem toLower_idem (c : Char) : Char.toLower (Char.toLower c) = Char.toLower c := by
  unfold Char.toLower
  simp only []
  split
  · rename_i h
    rw [toNat_ofNat_small _ (by omega)]
    rw [if_neg (by omega)]
  · rfl

theorem toLower_ne_slash (c : Char) (hc : c ≠ '/') : Char.toLower c ≠ '/' := by
  unfold Char.toLower
  simp only []
  split
  · rename_i h
    intro h2
    have := congrArg Char.toNat h2
    rw [toNat_ofNat_small _ (by omega)] at this
    have h3 : ('/' : Char).toNat = 47 := rfl
    omega
  · exact hc

theorem closeSelf_absPath (env : Env) (filePath abs0 : String)
    (hAbs : env.Abs filePath = .ok abs0) :
    (CloseSelfFileHandles env filePath).absPath = some (normalizeTarget env.lower abs0) := by
  unfold CloseSelfFileHandles
  simp only [hAbs]
  cases hq : (queryLoop env.replies (1024 * 1024)).2 <;> rfl

/-- C6, as stated, fails: for the absolute target `\\?\C:\data\db.sqlite`, which
`filepath.Abs` returns unchanged, the normalised target that the scan compares
with the handle paths is `\\?\c:\data\db.sqlite` and begins with `\\?\`, while
the normalisation of a handle path turns the same string into
`c:\data\db.sqlite`. -/
theorem closeSelf_target_keeps_device_marker :
    (CloseSelfFileHandles (demoEnv 1) "\\\\?\\C:\\data\\db.sqlite").absPath
        = some "\\\\?\\c:\\data\\db.sqlite"
    ∧ startsWith "\\\\?\\c:\\data\\db.sqlite" devicePrefix = true
    ∧ normalizeHandlePath (demoEnv 1).lower "\\\\?\\C:\\data\\db.sqlite"
        = "c:\\data\\db.sqlite" := by
  refine ⟨?_, by decide, by decide⟩
  rw [closeSelf_absPath (demoEnv 1) "\\\\?\\C:\\data\\db.sqlite"
    "\\\\?\\C:\\data\\db.sqlite" rfl]
  decide

/-- C6, amended. With a code-point mapping `lower` that is idempotent and never
produces a forward slash: the target compared by the scan is the result of
`filepath.Abs` with every forward slash replaced by a backslash and every code
point lower-cased, and no marker stripped; a handle path is normalised by the same
two steps followed by the removal of one leading `\\?\`. Both results are
lower-cased and hold no forward slash. The two normalisations agree on a path
whose lower-cased form does not begin with `\\?\`; on a path whose lower-cased
form is `\\?\` followed by `rest`, the handle normalisation yields `rest` and the
target normalisation keeps the marker. -/
theorem closeSelf_normalisation (env : Env) (filePath abs0 s : String)
    (hl : ∀ c, env.lower (env.lower c) = env.lower c)
    (hs : ∀ c, c ≠ '/' → env.lower c ≠ '/')
    (hAbs : env.Abs filePath = .ok abs0) :
    (CloseSelfFileHandles env filePath).absPath = some (normalizeTarget env.lower abs0)
    ∧ normalizeHandlePath env.lower s
        = TrimLeading (normalizeTarget env.lower s) devicePrefix
    ∧ (normalizeTarget env.lower s).data
        = s.data.map (fun c => env.lower (if c = '/' then '\\' else c))
    ∧ ToLower env.lower (normalizeTarget env.lower s) = normalizeTarget env.lower s
    ∧ ToLower env.lower (normalizeHandlePath env.lower s) = normalizeHandlePath env.lower s
    ∧ '/' ∉ (normalizeTarget env.lower s).data
    ∧ '/' ∉ (normalizeHandlePath env.lower s).data
    ∧ (startsWith (normalizeTarget env.lower s) devicePrefix = false →
        normalizeHandlePath env.lower s = normalizeTarget env.lower s)
    ∧ (∀ rest : String, normalizeTarget env.lower s = devicePrefix ++ rest →
        normalizeHandlePath env.lower s = rest
        ∧ normalizeHandlePath env.lower s ≠ normalizeTarget env.lower s) := by
  have hdata : (normalizeTarget env.lower s).data
      = s.data.map (fun c => env.lower (if c = '/' then '\\' else c)) := by
    simp [normalizeTarget, ToLower, ReplaceAll, List.map_map, Function.comp_def]
  have hlow : ToLower env.lower (normalizeTarget env.lower s)
      = normalizeTarget env.lower s := by
    apply String.ext
    simp [ToLower, hdata, List.map_map, Function.comp_def, hl]
  have hno : '/' ∉ (normalizeTarget env.lower s).data := by
    rw [hdata]
    intro hmem
    obtain ⟨c, _, hc⟩ := List.mem_map.mp hmem
    by_cases h : c = '/'
    · rw [if_pos h] at hc
      exact hs '\\' (by decide) hc
    · rw [if_neg h] at hc
      exact hs c h hc
  have hsub : ∀ c, c ∈ (normalizeHandlePath env.lower s).data →
      c ∈ (normalizeTarget env.lower s).data := by
    intro c hc
    unfold normalizeHandlePath TrimLeading at hc
    split at hc
    · exact List.mem_of_mem_drop hc
    · exact hc
  refine ⟨closeSelf_absPath env filePath abs0 hAbs, rfl, hdata, hlow, ?_, hno,
    fun h => hno (hsub _ h), ?_, ?_⟩
  · show ToLower env.lower (TrimLeading (normalizeTarget env.lower s) devicePrefix)
      = TrimLeading (normalizeTarget env.lower s) devicePrefix
    unfold TrimLeading
    split
    · apply String.ext
      have := congrArg String.data hlow
      simp only [ToLower] at this ⊢
      rw [List.map_drop, this]
    · exact hlow
  · intro h
    show TrimLeading (normalizeTarget env.lower s) devicePrefix = normalizeTarget env.lower s
    unfold TrimLeading
    rw [h]
    rfl
  · intro rest hrest
    have hd : (normalizeTarget env.lower s).data = devicePrefix.data ++ rest.data := by
      rw [hrest]; rfl
    have hp : startsWith (normalizeTarget env.lower s) devicePrefix = true := by
      simp [startsWith, hd]
    have h1 : normalizeHandlePath env.lower s = rest := by
      show TrimLeading (normalizeTarget env.lower s) devicePrefix = rest
      unfold TrimLeading
      rw [hp]
      apply String.ext
      simp [hd]
    refine ⟨h1, ?_⟩
    rw [h1, hrest]
    intro h
    have := congrArg (fun t => t.data.length) h
    simp [devicePrefix] at this
    omega

/-- C6 amended, with ASCII lower-casing, for the target `C:/Data/db.sqlite` and
the handle path `\\?\C:\Data\db.sqlite`: both normal forms hold no forward
slash. -/
theorem closeSelf_normalisation_witness :
    (CloseSelfFileHandles (demoEnv 1) "C:/Data/db.sqlite").absPath
        = some (normalizeTarget (demoEnv 1).lower "C:/Data/db.sqlite")
    ∧ '/' ∉ (normalizeHandlePath (demoEnv 1).lower "\\\\?\\C:\\Data\\db.sqlite").data
    ∧ normalizeTarget (demoEnv 1).lower "C:/Data/db.sqlite" = "c:\\data\\db.sqlite"
    ∧ normalizeHandlePath (demoEnv 1).lower "\\\\?\\C:\\Data\\db.sqlite"
        = "c:\\data\\db.sqlite" :=
  ⟨(closeSelf_normalisation (demoEnv 1) "C:/Data/db.sqlite" "C:/Data/db.sqlite"
      "\\\\?\\C:\\Data\\db.sqlite" toLower_idem toLower_ne_slash rfl).1,
   (closeSelf_normalisation (demoEnv 1) "C:/Data/db.sqlite" "C:/Data/db.sqlite"
      "\\\\?\\C:\\Data\\db.sqlite" toLower_idem toLower_ne_slash rfl).2.2.2.2.2.2.1,
   by decide, by decide⟩

end Unlock
